import Mathlib

/-!
Shallow embedding of `src/cec.js` of the cec-ctl-rest-api repository.

The external `cec-ctl` process is abstracted as a trace `Nat → ExecResult`
giving the outcome of the n-th process invocation.  All operations thread an
explicit `BusState` recording the trace position, the argument strings of the
commands issued so far, and how many pacing delays were awaited.  JavaScript
numbers are embedded as rationals (the volumes handled here are small
integers and halves, for which JS float arithmetic is exact).
-/

namespace CecCtl

/-- Outcome of one `execSync` invocation of the external binary:
captured stdout on success, or the thrown error's text. -/
inductive ExecResult where
  | ok (out : String)
  | err (msg : String)
deriving Repr, DecidableEq

/-- Whether an invocation outcome is a success. -/
def ExecResult.isOk : ExecResult → Bool
  | .ok _ => true
  | .err _ => false

/-- The response object produced by `CECResponse()` / `call` in `src/cec.js`.
JavaScript objects may simply lack the optional fields, so each optional
field is `Option` of its value type; `volume` is `Option (Option Nat)`
because the code can also set it to `null` (`some none`), which is distinct
from the field being absent (`none`). -/
structure CECResponse where
  error : Bool := false
  output : String := ""
  mute : Option Nat := none
  volume : Option (Option Nat) := none
deriving Repr, DecidableEq

/-- The module-level mutable configuration of `src/cec.js`
(`CEC_CTL_PARAMS`, `VOLUME_STEP`, `COMMAND_DELAY`) with its defaults. -/
structure Config where
  cecCtlParams : String := "-s --cec-version-1.4"
  volumeStep : ℚ := 1 / 2
  commandDelay : ℚ := 50
deriving Repr, DecidableEq

/-- The `options` object accepted by `initCEC`; a `none` field models an
absent (undefined) property. -/
structure Options where
  cecCtlParams : Option String := none
  volumeStep : Option ℚ := none
  commandDelay : Option ℚ := none

/-- JavaScript `x || d` for a possibly-absent string `x`:
the empty string is falsy. -/
def jsOrString : Option String → String → String
  | some s, d => if s = "" then d else s
  | none, d => d

/-- JavaScript `x || d` for a possibly-absent number `x`: zero is falsy. -/
def jsOrNum : Option ℚ → ℚ → ℚ
  | some x, d => if x = 0 then d else x
  | none, d => d

/-- The three assignments at the top of `initCEC` (src/cec.js lines
196-198): each global is replaced by `options.x || previous`. -/
def applyOptions (o : Options) (c : Config) : Config :=
  { cecCtlParams := jsOrString o.cecCtlParams c.cecCtlParams
    volumeStep := jsOrNum o.volumeStep c.volumeStep
    commandDelay := jsOrNum o.commandDelay c.commandDelay }

/-- State threaded through the operations: the invocation trace, the number
of invocations made so far, the argument strings issued (the executed
command line is the constant binary name and `cecCtlParams` followed by the
logged argument string), and the number of pacing delays awaited. -/
structure BusState where
  exec : Nat → ExecResult
  count : Nat := 0
  log : List String := []
  waits : Nat := 0

/-- Fresh state over a given invocation trace. -/
def initState (exec : Nat → ExecResult) : BusState :=
  { exec := exec, count := 0, log := [], waits := 0 }

/-- The `CECResponse` produced from one raw invocation outcome
(src/cec.js lines 41-46). -/
def rawResponse : ExecResult → CECResponse
  | .ok out => { output := out }
  | .err msg => { error := true, output := msg }

/-- `call(args)` of src/cec.js lines 36-49: one invocation of the external
binary, logged. -/
def call (args : String) (s : BusState) : CECResponse × BusState :=
  (rawResponse (s.exec s.count),
   { s with count := s.count + 1, log := s.log ++ [args] })

/-- The character class `\w` of the JavaScript regexes. -/
def isWordChar (c : Char) : Bool :=
  c.isAlpha || c.isDigit || c = '_'

/-- First match of a JavaScript regex of the shape `lit(C+)` for a literal
`lit` and a character class `C`: positions are tried left to right, and at
the first position where the literal occurs followed by at least one class
character, the maximal run of class characters is captured. -/
def matchCapture (lit : List Char) (cls : Char → Bool) : List Char → Option (List Char)
  | [] => none
  | c :: cs =>
    if lit.isPrefixOf (c :: cs) then
      let cap := ((c :: cs).drop lit.length).takeWhile cls
      if cap = [] then matchCapture lit cls cs else some cap
    else
      matchCapture lit cls cs

/-- `parseInt` on a captured string of decimal digits. -/
def digitsToNat (l : List Char) : Nat :=
  l.foldl (fun acc c => acc * 10 + (c.toNat - '0'.toNat)) 0

/-- The field extraction of `getAudioStatus` (src/cec.js lines 93-99): when
the invocation succeeded with non-empty output, set `mute` to 1 exactly when
the first `aud-mute-status:` token is `on` (0 otherwise, including when the
marker is missing) and set `volume` to the parsed `aud-vol-status:` number,
or to null (`some none`) when that marker is missing.  Otherwise both fields
stay absent. -/
def audioFields (r : CECResponse) : CECResponse :=
  if r.error = false ∧ r.output ≠ "" then
    let muteTok := matchCapture "aud-mute-status: ".data isWordChar r.output.data
    let volTok := matchCapture "aud-vol-status: ".data Char.isDigit r.output.data
    { r with
      mute := some (match muteTok with
        | some tok => if tok = "on".data then 1 else 0
        | none => 0)
      volume := some (volTok.map digitsToNat) }
  else
    r

/-- Argument string of the status read issued by `getAudioStatus`. -/
def statusCmd (dev : String) : String := "--give-audio-status -t " ++ dev

/-- Argument string of the press half of `sendUserControl`. -/
def pressCmd (control dev : String) : String :=
  "--user-control-pressed ui-cmd=" ++ control ++ " -t " ++ dev

/-- Argument string of the release half of `sendUserControl`. -/
def releaseCmd (dev : String) : String := "--user-control-released -t " ++ dev

/-- `getAudioStatus(logicalDeviceId)` of src/cec.js lines 78-102. -/
def getAudioStatus (dev : String) (s : BusState) : CECResponse × BusState :=
  let p := call (statusCmd dev) s
  (audioFields p.1, p.2)

/-- `sendUserControl(logicalDeviceId, control)` of src/cec.js lines
104-115: press; if the press succeeded, release; if the release also
succeeded, join the two outputs with a newline.  A failed release leaves
the press result (including its `error: false`) untouched. -/
def sendUserControl (dev control : String) (s : BusState) : CECResponse × BusState :=
  let p := call (pressCmd control dev) s
  if p.1.error = false then
    let q := call (releaseCmd dev) p.2
    if q.1.error = false then
      ({ p.1 with output := p.1.output ++ "\n" ++ q.1.output }, q.2)
    else
      (p.1, q.2)
  else
    p

/-- `increaseVolume` of src/cec.js lines 117-119. -/
def increaseVolume (dev : String) (s : BusState) : CECResponse × BusState :=
  sendUserControl dev "volume-up" s

/-- `decreaseVolume` of src/cec.js lines 121-123. -/
def decreaseVolume (dev : String) (s : BusState) : CECResponse × BusState :=
  sendUserControl dev "volume-down" s

/-- Number of executions of the body of the JavaScript loop
`for (let i = 0; i < a; i++)` for a numeric bound `a`: the integer values
of `i` reached are exactly the naturals below the ceiling of `a`.  Stated
on the reduced fraction of `a` so that it evaluates by kernel reduction;
`jsForIters_gt_iff` certifies the loop-bound reading and
`jsForIters_eq_ceil_toNat` identifies it with the ceiling. -/
def jsForIters (a : ℚ) : Nat := (a.num.toNat + a.den - 1) / a.den

/-- The convergence loop of `setVolumeAbsolute` (src/cec.js lines 144-155),
run for a given number of iterations: each iteration issues one relative
pulse in the fixed direction `up`, returns the pulse's result immediately
if it failed, and otherwise awaits the pacing delay when `commandDelay` is
positive (recorded in `waits`). -/
def pulseLoop (cfg : Config) (dev : String) (up : Bool) :
    Nat → BusState → Option CECResponse × BusState
  | 0, s => (none, s)
  | n + 1, s =>
    let step := if up then increaseVolume dev s else decreaseVolume dev s
    if step.1.error = true then
      (some step.1, step.2)
    else
      pulseLoop cfg dev up n
        (if 0 < cfg.commandDelay then { step.2 with waits := step.2.waits + 1 } else step.2)

/-- `setVolumeAbsolute(logicalDeviceId, volume)` of src/cec.js lines
125-158 for a numeric target.  The branch where `result.volume` is absent
(never assigned, i.e. a successful read with empty output) is the
JavaScript path in which `currentVolume` is `undefined`: both strict
comparisons are false and the loop bound is `NaN`, so the loop body never
runs and the trailing status re-read is returned. -/
def setVolumeAbsolute (cfg : Config) (dev : String) (volume : ℚ) (s : BusState) :
    CECResponse × BusState :=
  let p := getAudioStatus dev s
  if p.1.error = true then
    p
  else if p.1.volume = some none then
    ({ p.1 with
        error := true
        output := "The current volume level is not available to compare against. Aborting." },
     p.2)
  else
    match p.1.volume with
    | some (some currentVolume) =>
      if (currentVolume : ℚ) = volume then
        ({ p.1 with output := "Volume is already set to the desired value." }, p.2)
      else
        let adjustmentSteps : ℚ := |(currentVolume : ℚ) - volume| / cfg.volumeStep
        let r := pulseLoop cfg dev (decide ((currentVolume : ℚ) < volume))
          (jsForIters adjustmentSteps) p.2
        match r.1 with
        | some stepResult => (stepResult, r.2)
        | none => getAudioStatus dev r.2
    | _ => getAudioStatus dev p.2

/-- `setMute(logicalDeviceId, mute)` of src/cec.js lines 160-173, for a
desired state already coerced to the numeric 0/1 that `result.mute` holds;
the loose `==` then coincides with numeric equality, and is false when the
`mute` field was never assigned. -/
def setMute (dev : String) (mute : Nat) (s : BusState) : CECResponse × BusState :=
  let p := getAudioStatus dev s
  if p.1.error = true then
    p
  else if p.1.mute = some mute then
    ({ p.1 with output := "Mute status is already set to the desired value." }, p.2)
  else
    sendUserControl dev "mute" p.2

/-- `initCEC(options)` of src/cec.js lines 195-216: update the globals,
issue `--clear`, and only if it succeeded issue `--playback`; report
success exactly when both succeeded. -/
def initCEC (opts : Options) (cfg : Config) (s : BusState) :
    Bool × Config × BusState :=
  let cfg' := applyOptions opts cfg
  let p := call "--clear" s
  if p.1.error then
    (false, cfg', p.2)
  else
    let q := call "--playback" p.2
    if q.1.error then
      (false, cfg', q.2)
    else
      (true, cfg', q.2)

/-- A pulse press issued during volume convergence: one of the two
relative volume commands. -/
def isVolumePress (dev arg : String) : Bool :=
  arg == pressCmd "volume-up" dev || arg == pressCmd "volume-down" dev

/-- The registration states of the spec's Device Lifecycle Manager. -/
inductive LifecycleState where
  | Unregistered
  | Registered
deriving Repr, DecidableEq

/-- Modelled from the spec: the source keeps no explicit lifecycle state
variable, so the spec's state after `initialize` is derived from its rule
that Unregistered transitions to Registered exactly when initialization
reports success. -/
def lifecycleAfterInit (ok : Bool) : LifecycleState :=
  if ok then .Registered else .Unregistered

/-! ### Concrete invocation traces used by witnesses and counterexamples -/

/-- Trace for the convergence witnesses: the first read reports volume 28
and mute off; every later invocation succeeds. -/
def convExec : Nat → ExecResult := fun i =>
  if i = 0 then .ok "aud-mute-status: off (0x00)\naud-vol-status: 28 (0x1c)" else .ok "done"

/-- Trace for the abort counterexample/witness: read reports volume 10,
then the first press fails. -/
def failExec1 : Nat → ExecResult := fun i =>
  if i = 0 then .ok "aud-vol-status: 10 (0x0a)" else .err "E"

/-- Trace for the abort counterexample/witness: read reports volume 10,
the first pulse (press and release) succeeds, then the second press
fails. -/
def failExec2 : Nat → ExecResult := fun i =>
  if i = 0 then .ok "aud-vol-status: 10 (0x0a)"
  else if i ≤ 2 then .ok "done"
  else .err "E"

/-- Trace for the unreadable-volume witness: the read succeeds with output
that has a mute marker but no volume marker. -/
def noVolExec : Nat → ExecResult := fun i =>
  if i = 0 then .ok "aud-mute-status: on (0x01)" else .ok "x"

/-- Trace for the empty-output scenario: the first read succeeds with empty
output, the second read succeeds with a full status. -/
def emptyExec : Nat → ExecResult := fun i =>
  if i = 0 then .ok "" else .ok "aud-mute-status: off (0x00)\naud-vol-status: 40 (0x28)"

/-- Trace for the release-failure counterexample: the press succeeds with
output `P`, the release fails with error text `R`. -/
def relErrExec : Nat → ExecResult := fun i =>
  if i = 0 then .ok "P" else .err "R"

/-- Trace for the mute witnesses: the read reports mute on and volume 40;
later invocations succeed. -/
def muteExec : Nat → ExecResult := fun i =>
  if i = 0 then .ok "aud-mute-status: on (0x01)\naud-vol-status: 40 (0x28)" else .ok "k"

/-- Trace for the initialization witness: every invocation fails. -/
def clearFailExec : Nat → ExecResult := fun _ => .err "boom"

/-! ### Basic lemmas about the embedding -/






/-- The JavaScript loop `for (let i = 0; i < a; i++)` executes its body for
the value `i` exactly when `i < a` as numbers: `jsForIters` counts those
values. -/
theorem jsForIters_gt_iff (a : ℚ) (i : ℕ) : i < jsForIters a ↔ (i : ℚ) < a := by
  have hden : 0 < a.den := a.pos
  have h1 : i < jsForIters a ↔ (i + 1) * a.den ≤ a.num.toNat + a.den - 1 := by
    rw [jsForIters, Nat.lt_iff_add_one_le, Nat.le_div_iff_mul_le hden]
  have h2 : (i + 1) * a.den ≤ a.num.toNat + a.den - 1 ↔ ((i * a.den : ℕ) : ℤ) < a.num := by
    have hx : (i + 1) * a.den = i * a.den + a.den := by ring
    omega
  have h3 : ((i * a.den : ℕ) : ℤ) < a.num ↔ (i : ℚ) * a.den < a.num := by
    constructor <;> intro h <;> exact_mod_cast h
  have h4 : (i : ℚ) < a ↔ (i : ℚ) * a.den < a.num := by
    conv_lhs => rw [← Rat.num_div_den a]
    exact lt_div_iff₀ (by exact_mod_cast hden)
  rw [h1, h2, h3, ← h4]

/-- `jsForIters` is the (truncated) ceiling of the loop bound. -/
theorem jsForIters_eq_ceil_toNat (a : ℚ) : jsForIters a = (Int.ceil a).toNat := by
  have key : ∀ i : ℕ, i < jsForIters a ↔ i < (Int.ceil a).toNat := by
    intro i
    rw [jsForIters_gt_iff]
    constructor
    · intro h
      have : (i : ℤ) < Int.ceil a := Int.lt_ceil.mpr (by exact_mod_cast h)
      omega
    · intro h
      have : (i : ℤ) < Int.ceil a := by omega
      exact_mod_cast Int.lt_ceil.mp this
  have h1 := key (jsForIters a)
  have h2 := key (Int.ceil a).toNat
  omega

/-- `getAudioStatus` unfolded: one logged invocation, parsed. -/
theorem getAudioStatus_eq (dev : String) (s : BusState) :
    getAudioStatus dev s =
      (audioFields (rawResponse (s.exec s.count)),
       { s with count := s.count + 1, log := s.log ++ [statusCmd dev] }) := rfl

/-- A parsed raw response only carries a `volume` field when the invocation
succeeded with non-empty output. -/
theorem audioFields_raw_volume_some {e : ExecResult} {v : Option Nat}
    (h : (audioFields (rawResponse e)).volume = some v) :
    (rawResponse e).error = false ∧ (rawResponse e).output ≠ "" := by
  by_cases hc : (rawResponse e).error = false ∧ (rawResponse e).output ≠ ""
  · exact hc
  · rw [audioFields, if_neg hc] at h
    cases e <;> simp [rawResponse] at h

/-- Success of an invocation outcome, as an existence statement. -/
theorem isOk_iff {e : ExecResult} : e.isOk = true ↔ ∃ o, e = .ok o := by
  cases e <;> simp [ExecResult.isOk]

/-- `sendUserControl` when the press fails: the release is never issued and
the raw press failure is returned unchanged. -/
theorem sendUserControl_press_err (dev control : String) (s : BusState) (msg : String)
    (h : s.exec s.count = .err msg) :
    sendUserControl dev control s =
      ({ error := true, output := msg },
       { s with
          count := s.count + 1,
          log := s.log ++ [pressCmd control dev] }) := by
  simp [sendUserControl, call, h, rawResponse]

/-- `sendUserControl` when both halves succeed: outputs joined by a
newline. -/
theorem sendUserControl_ok_ok (dev control : String) (s : BusState) (p q : String)
    (hp : s.exec s.count = .ok p) (hq : s.exec (s.count + 1) = .ok q) :
    sendUserControl dev control s =
      ({ error := false, output := p ++ "\n" ++ q },
       { s with
          count := s.count + 2,
          log := s.log ++ [pressCmd control dev, releaseCmd dev] }) := by
  simp only [sendUserControl, call, hp, rawResponse]
  simp only [BusState.count, hq]
  simp [List.append_assoc]

/-- `sendUserControl` when the press succeeds but the release fails: the
press result is returned unchanged, so the failure of the release is not
reflected in the `error` flag nor in the output. -/
theorem sendUserControl_ok_err (dev control : String) (s : BusState) (p m : String)
    (hp : s.exec s.count = .ok p) (hq : s.exec (s.count + 1) = .err m) :
    sendUserControl dev control s =
      ({ error := false, output := p },
       { s with
          count := s.count + 2,
          log := s.log ++ [pressCmd control dev, releaseCmd dev] }) := by
  simp only [sendUserControl, call, hp, rawResponse]
  simp only [BusState.count, hq]
  simp [List.append_assoc]

/-- The conditional in the loop body of `setVolumeAbsolute` is one
`sendUserControl` with the direction-dependent control code. -/
theorem stepCmd_eq (dev : String) (up : Bool) (s : BusState) :
    (if up then increaseVolume dev s else decreaseVolume dev s) =
      sendUserControl dev (if up then "volume-up" else "volume-down") s := by
  cases up <;> rfl

/-- The convergence loop when every invocation it makes succeeds: it
completes all `n` iterations, issuing `n` press/release pairs in the fixed
direction and awaiting the pacing delay after each pulse exactly when the
configured delay is positive. -/
theorem pulseLoop_allOk (cfg : Config) (dev : String) (up : Bool) (n : Nat) (s : BusState)
    (hok : ∀ i, s.count ≤ i → i < s.count + 2 * n → (s.exec i).isOk = true) :
    pulseLoop cfg dev up n s =
      (none,
       { s with
          count := s.count + 2 * n,
          log := s.log ++ (List.replicate n
            [pressCmd (if up then "volume-up" else "volume-down") dev, releaseCmd dev]).join,
          waits := s.waits + (if 0 < cfg.commandDelay then n else 0) }) := by
  induction n generalizing s with
  | zero => simp [pulseLoop]
  | succ n ih =>
    obtain ⟨p, hp⟩ := isOk_iff.mp (hok s.count le_rfl (by omega))
    obtain ⟨q, hq⟩ := isOk_iff.mp (hok (s.count + 1) (by omega) (by omega))
    rw [pulseLoop, stepCmd_eq, sendUserControl_ok_ok dev _ s p q hp hq, if_neg (by simp)]
    by_cases hd : 0 < cfg.commandDelay
    · rw [if_pos hd, ih]
      · simp only [Prod.mk.injEq, BusState.mk.injEq, List.replicate_succ, List.join_cons,
          List.append_assoc, if_pos hd, true_and]
        first
        | trivial
        | omega
      · intro i h1 h2
        simp only [BusState.count] at h1 h2
        exact hok i (by omega) (by omega)
    · rw [if_neg hd, ih]
      · simp only [Prod.mk.injEq, BusState.mk.injEq, List.replicate_succ, List.join_cons,
          List.append_assoc, if_neg hd, true_and]
        exact ⟨by omega, trivial⟩
      · intro i h1 h2
        simp only [BusState.count] at h1 h2
        exact hok i (by omega) (by omega)

/-- Parsing the audio-status fields never changes the error flag. -/
theorem audioFields_error (r : CECResponse) : (audioFields r).error = r.error := by
  rw [audioFields]
  split <;> rfl

/-- Counting matches inside a concatenation of `n` copies of a block. -/
theorem countP_join_replicate {α : Type} (p : α → Bool) (l : List α) (n : ℕ) :
    ((List.replicate n l).join).countP p = n * l.countP p := by
  induction n with
  | zero => simp
  | succ n ih => simp [List.replicate_succ, List.countP_append, ih, Nat.succ_mul, Nat.add_comm]

/-- Appending a common suffix to literals of different lengths cannot
produce equal strings. -/
theorem append_ne_append {p q : String} (d : String) (h : p.length ≠ q.length) :
    p ++ d ≠ q ++ d := by
  intro he
  apply h
  have hlen := congrArg String.length he
  simp only [String.length_append] at hlen
  omega

/-- The convergence loop when the presses of the first `m` pulses (and
their releases) succeed and the press of pulse `m + 1` fails, within the
planned iteration count: the loop stops at the failed press, returning its
raw failure result, with `m` completed pulses in the log and no release
after the failed press. -/
theorem pulseLoop_fail (cfg : Config) (dev : String) (up : Bool) (m f : Nat) (s : BusState)
    (msg : String) (hf : m < f)
    (hok : ∀ i, s.count ≤ i → i < s.count + 2 * m → (s.exec i).isOk = true)
    (hfail : s.exec (s.count + 2 * m) = .err msg) :
    pulseLoop cfg dev up f s =
      (some { error := true, output := msg },
       { s with
          count := s.count + 2 * m + 1,
          log := s.log ++ (List.replicate m
              [pressCmd (if up then "volume-up" else "volume-down") dev, releaseCmd dev]).join
            ++ [pressCmd (if up then "volume-up" else "volume-down") dev],
          waits := s.waits + (if 0 < cfg.commandDelay then m else 0) }) := by
  induction m generalizing s f with
  | zero =>
    obtain ⟨g, rfl⟩ : ∃ g, f = g + 1 := ⟨f - 1, by omega⟩
    rw [pulseLoop, stepCmd_eq, sendUserControl_press_err dev _ s msg (by simpa using hfail),
      if_pos rfl]
    simp
  | succ m ih =>
    obtain ⟨g, rfl⟩ : ∃ g, f = g + 1 := ⟨f - 1, by omega⟩
    obtain ⟨p, hp⟩ := isOk_iff.mp (hok s.count le_rfl (by omega))
    obtain ⟨q, hq⟩ := isOk_iff.mp (hok (s.count + 1) (by omega) (by omega))
    rw [pulseLoop, stepCmd_eq, sendUserControl_ok_ok dev _ s p q hp hq, if_neg (by simp)]
    by_cases hd : 0 < cfg.commandDelay
    · rw [if_pos hd, ih]
      · simp only [Prod.mk.injEq, BusState.mk.injEq, List.replicate_succ, List.join_cons,
          List.append_assoc, if_pos hd, true_and]
        repeat' apply And.intro
        all_goals first | rfl | trivial | omega
      · omega
      · intro i h1 h2
        simp only [BusState.count] at h1 h2
        exact hok i (by omega) (by omega)
      · simp only [BusState.count, BusState.exec]
        have harith : s.count + 2 + 2 * m = s.count + 2 * (m + 1) := by omega
        rw [harith]
        exact hfail
    · rw [if_neg hd, ih]
      · simp only [Prod.mk.injEq, BusState.mk.injEq, List.replicate_succ, List.join_cons,
          List.append_assoc, if_neg hd, true_and]
        repeat' apply And.intro
        all_goals first | rfl | trivial | omega
      · omega
      · intro i h1 h2
        simp only [BusState.count] at h1 h2
        exact hok i (by omega) (by omega)
      · simp only [BusState.count, BusState.exec]
        have harith : s.count + 2 + 2 * m = s.count + 2 * (m + 1) := by omega
        rw [harith]
        exact hfail

/-- The status command is never a pulse press. -/
theorem statusCmd_beq_pressCmd (control dev : String) :
    (statusCmd dev == pressCmd control dev) = false := by
  refine beq_eq_false_iff_ne.mpr ?_
  intro he
  have hlen := congrArg String.length he
  have h1 : ("--give-audio-status -t ").length = 23 := by decide
  have h2 : ("--user-control-pressed ui-cmd=").length = 30 := by decide
  have h3 : (" -t ").length = 4 := by decide
  simp only [statusCmd, pressCmd, String.length_append] at hlen
  omega

/-- The release command is never a pulse press. -/
theorem releaseCmd_beq_pressCmd (control dev : String) :
    (releaseCmd dev == pressCmd control dev) = false := by
  refine beq_eq_false_iff_ne.mpr ?_
  intro he
  have hlen := congrArg String.length he
  have h1 : ("--user-control-released -t ").length = 27 := by decide
  have h2 : ("--user-control-pressed ui-cmd=").length = 30 := by decide
  have h3 : (" -t ").length = 4 := by decide
  simp only [releaseCmd, pressCmd, String.length_append] at hlen
  omega

/-- Presses with control codes of different lengths differ. -/
theorem pressCmd_beq_pressCmd (c1 c2 dev : String) (h : c1.length ≠ c2.length) :
    (pressCmd c1 dev == pressCmd c2 dev) = false := by
  refine beq_eq_false_iff_ne.mpr ?_
  intro he
  have hlen := congrArg String.length he
  simp only [pressCmd, String.length_append] at hlen
  omega

/-- Counting presses in the log shape produced by a completed convergence
run: the direction pressed appears once per pulse, any other control code
never. -/
theorem countP_conv_log (dev c1 c2 : String) (n : ℕ) (h12 : c1.length ≠ c2.length) :
    ((statusCmd dev :: ((List.replicate n [pressCmd c1 dev, releaseCmd dev]).join
        ++ [statusCmd dev])).countP (fun a => a == pressCmd c1 dev) = n) ∧
    ((statusCmd dev :: ((List.replicate n [pressCmd c1 dev, releaseCmd dev]).join
        ++ [statusCmd dev])).countP (fun a => a == pressCmd c2 dev) = 0) := by
  have hs1 := statusCmd_beq_pressCmd c1 dev
  have hs2 := statusCmd_beq_pressCmd c2 dev
  have hr1 := releaseCmd_beq_pressCmd c1 dev
  have hr2 := releaseCmd_beq_pressCmd c2 dev
  have hp12 : (pressCmd c1 dev == pressCmd c2 dev) = false :=
    pressCmd_beq_pressCmd c1 c2 dev h12
  have hp11 : (pressCmd c1 dev == pressCmd c1 dev) = true := beq_self_eq_true _
  constructor <;>
    simp [List.countP_cons, List.countP_append, countP_join_replicate, hs1, hs2, hr1, hr2,
      hp12, hp11]

/-- A convergence run in which the initial read yields volume `c` distinct
from the target and all subsequent invocations up to the planned pulses
succeed: all pulses are issued and a final status read is returned. -/
theorem setVolumeAbsolute_okRun
    (exec : Nat → ExecResult) (cfg : Config) (dev : String) (t : ℚ) (c n : ℕ)
    (hn : (n : ℤ) = Int.ceil (|(c : ℚ) - t| / cfg.volumeStep))
    (hvol : (audioFields (rawResponse (exec 0))).volume = some (some c))
    (hne : (c : ℚ) ≠ t)
    (hok : ∀ i, i ≤ 2 * n → 1 ≤ i → (exec i).isOk = true) :
    setVolumeAbsolute cfg dev t (initState exec) =
      (audioFields (rawResponse (exec (2 * n + 1))),
       { exec := exec, count := 2 * n + 2,
         log := statusCmd dev :: ((List.replicate n
             [pressCmd (if (c : ℚ) < t then "volume-up" else "volume-down") dev,
              releaseCmd dev]).join ++ [statusCmd dev]),
         waits := if 0 < cfg.commandDelay then n else 0 }) := by
  have hjs : jsForIters (|(c : ℚ) - t| / cfg.volumeStep) = n := by
    rw [jsForIters_eq_ceil_toNat]
    omega
  have herr : (audioFields (rawResponse (exec 0))).error = false := by
    rw [audioFields_error]
    exact (audioFields_raw_volume_some hvol).1
  simp only [setVolumeAbsolute, getAudioStatus_eq, initState, herr, hvol, hjs]
  rw [if_neg (by simp), if_neg (by simp), if_neg hne]
  rw [pulseLoop_allOk]
  · simp only [Prod.mk.injEq, BusState.mk.injEq, decide_eq_true_eq, List.nil_append]
    have hidx : 0 + 1 + 2 * n = 2 * n + 1 := by omega
    rw [hidx]
    simp
  · intro i h1 h2
    simp only [BusState.count] at h1 h2
    exact hok i (by omega) (by omega)

/-! ### Claim theorems -/


/-- Claim C1: for a successfully read numeric current volume `c`, a numeric
target `t` distinct from it and a positive configured step size, a run of
`setVolumeAbsolute` whose bus invocations after the initial read all succeed
issues exactly `n = ceil(|c - t| / stepSize)` relative volume pulses — each a
press/release pair whose control code is volume-up when `t > c` and
volume-down when `t < c`, and no pulse in the opposite direction — and after
the loop re-reads the audio status and returns its parse as the final
result. -/
theorem C1_setVolumeAbsolute_convergence
    (exec : Nat → ExecResult) (cfg : Config) (dev : String) (t : ℚ) (c n : ℕ)
    (hstep : 0 < cfg.volumeStep)
    (hn : (n : ℤ) = Int.ceil (|(c : ℚ) - t| / cfg.volumeStep))
    (hvol : (audioFields (rawResponse (exec 0))).volume = some (some c))
    (hne : (c : ℚ) ≠ t)
    (hok : ∀ i, i ≤ 2 * n → 1 ≤ i → (exec i).isOk = true) :
    setVolumeAbsolute cfg dev t (initState exec) =
      (audioFields (rawResponse (exec (2 * n + 1))),
       { exec := exec, count := 2 * n + 2,
         log := statusCmd dev :: ((List.replicate n
             [pressCmd (if (c : ℚ) < t then "volume-up" else "volume-down") dev,
              releaseCmd dev]).join ++ [statusCmd dev]),
         waits := if 0 < cfg.commandDelay then n else 0 }) ∧
    (setVolumeAbsolute cfg dev t (initState exec)).2.log.countP
      (fun a => a == pressCmd (if (c : ℚ) < t then "volume-up" else "volume-down") dev) = n ∧
    (setVolumeAbsolute cfg dev t (initState exec)).2.log.countP
      (fun a => a == pressCmd (if (c : ℚ) < t then "volume-down" else "volume-up") dev) = 0 := by
  have hrun := setVolumeAbsolute_okRun exec cfg dev t c n hn hvol hne hok
  refine ⟨hrun, ?_, ?_⟩
  · rw [hrun]
    by_cases hdir : (c : ℚ) < t
    · simpa [hdir] using (countP_conv_log dev "volume-up" "volume-down" n (by decide)).1
    · simpa [hdir] using (countP_conv_log dev "volume-down" "volume-up" n (by decide)).1
  · rw [hrun]
    by_cases hdir : (c : ℚ) < t
    · simpa [hdir] using (countP_conv_log dev "volume-up" "volume-down" n (by decide)).2
    · simpa [hdir] using (countP_conv_log dev "volume-down" "volume-up" n (by decide)).2

/-- The concrete step bound of the convergence witness: four steps from 28
to 30 at the default step size one half. -/
theorem convExec_ceil :
    ((4 : ℕ) : ℤ) = Int.ceil (|(28 : ℚ) - 30| / ({} : Config).volumeStep) := by
  show ((4 : ℕ) : ℤ) = Int.ceil (|(28 : ℚ) - 30| / (1 / 2 : ℚ))
  norm_num

/-- The default step size is positive. -/
theorem default_volumeStep_pos : (0 : ℚ) < ({} : Config).volumeStep := one_half_pos

/-- Witness for C1: with current volume 28, target 30 and the default
configuration, every hypothesis of the claim holds and the run issues
exactly four volume-up pulses. -/
theorem C1_setVolumeAbsolute_convergence_witness :
    ((0 : ℚ) < ({} : Config).volumeStep ∧
     ((4 : ℕ) : ℤ) = Int.ceil (|(28 : ℚ) - 30| / ({} : Config).volumeStep) ∧
     (audioFields (rawResponse (convExec 0))).volume = some (some 28) ∧
     ((28 : ℕ) : ℚ) ≠ 30 ∧
     (∀ i, i ≤ 2 * 4 → 1 ≤ i → (convExec i).isOk = true)) ∧
    (setVolumeAbsolute {} "5" 30 (initState convExec)).2.log.countP
      (fun a => a == pressCmd (if ((28 : ℕ) : ℚ) < 30 then "volume-up" else "volume-down")
        "5") = 4 :=
  ⟨⟨default_volumeStep_pos, convExec_ceil, by decide, by decide, by decide⟩,
   (C1_setVolumeAbsolute_convergence convExec {} "5" 30 28 4 default_volumeStep_pos
     convExec_ceil (by decide) (by decide) (by decide)).2.1⟩

/-- Counting presses in the log shape produced by an aborted convergence
run: one press per completed pulse plus the failed press. -/
theorem countP_fail_log (dev c1 : String) (m : ℕ) :
    ((statusCmd dev :: ((List.replicate m [pressCmd c1 dev, releaseCmd dev]).join
        ++ [pressCmd c1 dev])).countP (fun a => a == pressCmd c1 dev)) = m + 1 := by
  have hs1 := statusCmd_beq_pressCmd c1 dev
  have hr1 := releaseCmd_beq_pressCmd c1 dev
  have hp11 : (pressCmd c1 dev == pressCmd c1 dev) = true := beq_self_eq_true _
  simp [List.countP_cons, List.countP_append, countP_join_replicate, hs1, hr1, hp11]

/-- A convergence run in which the presses and releases of the first `m`
pulses succeed and the press of pulse `m + 1` fails (within the planned
step count): the run stops at the failed press and returns its raw failure
result unchanged. -/
theorem setVolumeAbsolute_failRun
    (exec : Nat → ExecResult) (cfg : Config) (dev : String) (t : ℚ) (c n m : ℕ)
    (msg : String)
    (hn : (n : ℤ) = Int.ceil (|(c : ℚ) - t| / cfg.volumeStep))
    (hvol : (audioFields (rawResponse (exec 0))).volume = some (some c))
    (hne : (c : ℚ) ≠ t)
    (hm : m < n)
    (hok : ∀ i, i ≤ 2 * m → 1 ≤ i → (exec i).isOk = true)
    (hfail : exec (2 * m + 1) = .err msg) :
    setVolumeAbsolute cfg dev t (initState exec) =
      ({ error := true, output := msg },
       { exec := exec, count := 2 * m + 2,
         log := statusCmd dev :: ((List.replicate m
             [pressCmd (if (c : ℚ) < t then "volume-up" else "volume-down") dev,
              releaseCmd dev]).join
           ++ [pressCmd (if (c : ℚ) < t then "volume-up" else "volume-down") dev]),
         waits := if 0 < cfg.commandDelay then m else 0 }) := by
  have hjs : jsForIters (|(c : ℚ) - t| / cfg.volumeStep) = n := by
    rw [jsForIters_eq_ceil_toNat]
    omega
  have herr : (audioFields (rawResponse (exec 0))).error = false := by
    rw [audioFields_error]
    exact (audioFields_raw_volume_some hvol).1
  simp only [setVolumeAbsolute, getAudioStatus_eq, initState, herr, hvol, hjs]
  rw [if_neg (by simp), if_neg (by simp), if_neg hne]
  rw [pulseLoop_fail cfg dev (decide ((c : ℚ) < t)) m n _ msg hm]
  · simp only [Prod.mk.injEq, BusState.mk.injEq, decide_eq_true_eq, List.nil_append]
    refine ⟨trivial, trivial, by omega, by simp, by simp⟩
  · intro i h1 h2
    simp only [BusState.count] at h1 h2
    exact hok i (by omega) (by omega)
  · simp only [BusState.count, BusState.exec]
    have harith : 0 + 1 + 2 * m = 2 * m + 1 := by omega
    rw [harith]
    exact hfail

/-- The concrete step bound of the abort scenarios: four steps from 10 to
12 at the default step size one half. -/
theorem failExec_ceil :
    ((4 : ℕ) : ℤ) = Int.ceil (|(10 : ℚ) - 12| / ({} : Config).volumeStep) := by
  show ((4 : ℕ) : ℤ) = Int.ceil (|(10 : ℚ) - 12| / (1 / 2 : ℚ))
  norm_num

/-- Claim C2 (amended): if in a convergence run the presses and releases of
the first `m = k - 1` pulses succeed and the `k`-th press fails within the
planned step count, then exactly `k - 1` successful pulses were issued
before it, no further invocation of any kind occurs afterwards, and the
operation returns the failed press's raw gateway failure result — the error
flag and the captured error text only, with no step index in it. -/
theorem C2_setVolumeAbsolute_abort
    (exec : Nat → ExecResult) (cfg : Config) (dev : String) (t : ℚ) (c n m : ℕ)
    (msg : String)
    (hstep : 0 < cfg.volumeStep)
    (hn : (n : ℤ) = Int.ceil (|(c : ℚ) - t| / cfg.volumeStep))
    (hvol : (audioFields (rawResponse (exec 0))).volume = some (some c))
    (hne : (c : ℚ) ≠ t)
    (hm : m < n)
    (hok : ∀ i, i ≤ 2 * m → 1 ≤ i → (exec i).isOk = true)
    (hfail : exec (2 * m + 1) = .err msg) :
    setVolumeAbsolute cfg dev t (initState exec) =
      ({ error := true, output := msg },
       { exec := exec, count := 2 * m + 2,
         log := statusCmd dev :: ((List.replicate m
             [pressCmd (if (c : ℚ) < t then "volume-up" else "volume-down") dev,
              releaseCmd dev]).join
           ++ [pressCmd (if (c : ℚ) < t then "volume-up" else "volume-down") dev]),
         waits := if 0 < cfg.commandDelay then m else 0 }) ∧
    (setVolumeAbsolute cfg dev t (initState exec)).2.log.countP
      (fun a => a == pressCmd (if (c : ℚ) < t then "volume-up" else "volume-down") dev)
      = m + 1 := by
  have hrun := setVolumeAbsolute_failRun exec cfg dev t c n m msg hn hvol hne hm hok hfail
  refine ⟨hrun, ?_⟩
  rw [hrun]
  exact countP_fail_log dev (if (c : ℚ) < t then "volume-up" else "volume-down") m

/-- Witness for C2 (amended): with current volume 10, target 12 and the
default configuration, the first pulse succeeds and the second press fails;
the run stops there having issued two presses. -/
theorem C2_setVolumeAbsolute_abort_witness :
    ((0 : ℚ) < ({} : Config).volumeStep ∧
     ((4 : ℕ) : ℤ) = Int.ceil (|(10 : ℚ) - 12| / ({} : Config).volumeStep) ∧
     (audioFields (rawResponse (failExec2 0))).volume = some (some 10) ∧
     ((10 : ℕ) : ℚ) ≠ 12 ∧
     1 < 4 ∧
     (∀ i, i ≤ 2 * 1 → 1 ≤ i → (failExec2 i).isOk = true) ∧
     failExec2 (2 * 1 + 1) = .err "E") ∧
    (setVolumeAbsolute {} "5" 12 (initState failExec2)).2.log.countP
      (fun a => a == pressCmd (if ((10 : ℕ) : ℚ) < 12 then "volume-up" else "volume-down")
        "5") = 1 + 1 :=
  ⟨⟨default_volumeStep_pos, failExec_ceil, by decide, by decide, by decide, by decide,
    by decide⟩,
   (C2_setVolumeAbsolute_abort failExec2 {} "5" 12 10 4 1 "E" default_volumeStep_pos
     failExec_ceil (by decide) (by decide) (by decide) (by decide) (by decide)).2⟩

/-- Counterexample to C2 as stated: two runs that fail at the first and at
the second pulse respectively return exactly the same result object, so
the returned failure result does not report the index of the failed step
(the two indices are visible in the differing press counts of the logs). -/
theorem C2_failed_step_index_not_reported :
    (setVolumeAbsolute {} "5" 12 (initState failExec1)).1 =
      (setVolumeAbsolute {} "5" 12 (initState failExec2)).1 ∧
    (setVolumeAbsolute {} "5" 12 (initState failExec1)).2.log.countP
      (fun a => a == pressCmd "volume-up" "5") = 1 ∧
    (setVolumeAbsolute {} "5" 12 (initState failExec2)).2.log.countP
      (fun a => a == pressCmd "volume-up" "5") = 2 := by
  have hd : ((10 : ℕ) : ℚ) < 12 := by decide
  have h1 := setVolumeAbsolute_failRun failExec1 {} "5" 12 10 4 0 "E" failExec_ceil
    (by decide) (by decide) (by decide) (by decide) (by decide)
  have h2 := setVolumeAbsolute_failRun failExec2 {} "5" 12 10 4 1 "E" failExec_ceil
    (by decide) (by decide) (by decide) (by decide) (by decide)
  rw [if_pos hd] at h1 h2
  refine ⟨by rw [h1, h2], ?_, ?_⟩
  · rw [h1]
    exact countP_fail_log "5" "volume-up" 0
  · rw [h2]
    exact countP_fail_log "5" "volume-up" 1

/-- Claim C4: when the successfully read current volume equals the numeric
target, `setVolumeAbsolute` returns a success result (error flag down)
carrying the no-adjustment-needed message, with only the initial status
read on the bus — zero pulses. -/
theorem C4_setVolumeAbsolute_already_set
    (exec : Nat → ExecResult) (cfg : Config) (dev : String) (t : ℚ) (c : ℕ)
    (hvol : (audioFields (rawResponse (exec 0))).volume = some (some c))
    (heq : (c : ℚ) = t) :
    setVolumeAbsolute cfg dev t (initState exec) =
      ({ error := false, output := "Volume is already set to the desired value.",
         mute := (audioFields (rawResponse (exec 0))).mute, volume := some (some c) },
       { exec := exec, count := 1, log := [statusCmd dev], waits := 0 }) ∧
    (setVolumeAbsolute cfg dev t (initState exec)).2.log.countP (isVolumePress dev) = 0 := by
  have herr : (audioFields (rawResponse (exec 0))).error = false := by
    rw [audioFields_error]
    exact (audioFields_raw_volume_some hvol).1
  have hrun : setVolumeAbsolute cfg dev t (initState exec) =
      ({ error := false, output := "Volume is already set to the desired value.",
         mute := (audioFields (rawResponse (exec 0))).mute, volume := some (some c) },
       { exec := exec, count := 1, log := [statusCmd dev], waits := 0 }) := by
    simp only [setVolumeAbsolute, getAudioStatus_eq, initState, herr, hvol]
    rw [if_neg (by simp), if_neg (by simp), if_pos heq]
    simp
  refine ⟨hrun, ?_⟩
  rw [hrun]
  simp [isVolumePress, List.countP_cons, statusCmd_beq_pressCmd]

/-- Witness for C4: current volume 28, target 28: the no-op branch with one
bus read and no pulse. -/
theorem C4_setVolumeAbsolute_already_set_witness :
    ((audioFields (rawResponse (convExec 0))).volume = some (some 28) ∧
     ((28 : ℕ) : ℚ) = 28) ∧
    (setVolumeAbsolute {} "5" 28 (initState convExec)).2.log.countP (isVolumePress "5")
      = 0 :=
  ⟨⟨by decide, by decide⟩,
   (C4_setVolumeAbsolute_already_set convExec {} "5" 28 28 (by decide) (by decide)).2⟩

/-- Claim C3: when the initial read succeeds with non-empty output from
which no volume can be parsed — so the parsed volume is the null marker,
not a defaulted number — `setVolumeAbsolute` returns the distinct
unreadable-volume error before issuing any pulse, and the absent volume is
never replaced by 0 or any other number. -/
theorem C3_setVolumeAbsolute_unreadable
    (exec : Nat → ExecResult) (cfg : Config) (dev : String) (t : ℚ) (out : String)
    (h0 : exec 0 = .ok out) (hout : out ≠ "")
    (hnovol : matchCapture "aud-vol-status: ".data Char.isDigit out.data = none) :
    setVolumeAbsolute cfg dev t (initState exec) =
      ({ error := true,
         output := "The current volume level is not available to compare against. Aborting.",
         mute := (audioFields (rawResponse (exec 0))).mute, volume := some none },
       { exec := exec, count := 1, log := [statusCmd dev], waits := 0 }) ∧
    (setVolumeAbsolute cfg dev t (initState exec)).2.log.countP (isVolumePress dev) = 0 ∧
    ∀ v : Nat, (setVolumeAbsolute cfg dev t (initState exec)).1.volume ≠ some (some v) := by
  have hvol : (audioFields (rawResponse (exec 0))).volume = some none := by
    rw [h0]
    simp [audioFields, rawResponse, hout, hnovol]
  have herr : (audioFields (rawResponse (exec 0))).error = false := by
    rw [audioFields_error, h0]
    rfl
  have hrun : setVolumeAbsolute cfg dev t (initState exec) =
      ({ error := true,
         output := "The current volume level is not available to compare against. Aborting.",
         mute := (audioFields (rawResponse (exec 0))).mute, volume := some none },
       { exec := exec, count := 1, log := [statusCmd dev], waits := 0 }) := by
    simp only [setVolumeAbsolute, getAudioStatus_eq, initState, herr, hvol]
    rw [if_neg (by simp)]
    simp
  refine ⟨hrun, ?_, ?_⟩
  · rw [hrun]
    simp [isVolumePress, List.countP_cons, statusCmd_beq_pressCmd]
  · rw [hrun]
    simp

/-- Witness for C3: a read that reports only a mute marker; the run aborts
with the distinct message after the single bus read. -/
theorem C3_setVolumeAbsolute_unreadable_witness :
    (noVolExec 0 = .ok "aud-mute-status: on (0x01)" ∧
     ("aud-mute-status: on (0x01)" : String) ≠ "" ∧
     matchCapture "aud-vol-status: ".data Char.isDigit
       ("aud-mute-status: on (0x01)" : String).data = none) ∧
    (setVolumeAbsolute {} "5" 40 (initState noVolExec)).2.log.countP (isVolumePress "5")
      = 0 :=
  ⟨⟨by decide, by decide, by decide⟩,
   (C3_setVolumeAbsolute_unreadable noVolExec {} "5" 40 "aud-mute-status: on (0x01)"
     (by decide) (by decide) (by decide)).2.1⟩

/-- Claim C10: a successful gateway call with empty output leaves the
returned status result with the error flag down and with both the `mute`
and `volume` fields entirely absent — not set to the documented defaults —
and a `setVolumeAbsolute` run hitting this case slips past the
unreadable-volume guard: it issues no pulse and simply returns whatever the
second read parses to, so the error flag alone cannot distinguish the case
from success. -/
theorem C10_getAudioStatus_empty_output
    (exec : Nat → ExecResult) (cfg : Config) (dev : String) (t : ℚ)
    (h0 : exec 0 = .ok "") :
    (getAudioStatus dev (initState exec)).1 =
      { error := false, output := "", mute := none, volume := none } ∧
    setVolumeAbsolute cfg dev t (initState exec) =
      (audioFields (rawResponse (exec 1)),
       { exec := exec, count := 2, log := [statusCmd dev, statusCmd dev], waits := 0 }) := by
  have hfields : audioFields (rawResponse (exec 0)) =
      { error := false, output := "", mute := none, volume := none } := by
    rw [h0]
    simp [audioFields, rawResponse]
  constructor
  · rw [getAudioStatus_eq]
    simpa [initState] using hfields
  · simp only [setVolumeAbsolute, getAudioStatus_eq, initState, hfields]
    rw [if_neg (by simp), if_neg (by simp)]
    simp

/-- Witness for C10: the first read captures empty output and the second a
full status; the run returns the second read's parse with no error. -/
theorem C10_getAudioStatus_empty_output_witness :
    (emptyExec 0 = .ok "") ∧
    (getAudioStatus "5" (initState emptyExec)).1 =
      { error := false, output := "", mute := none, volume := none } :=
  ⟨by decide,
   (C10_getAudioStatus_empty_output emptyExec {} "5" 40 (by decide)).1⟩

/-- One press/release never touches the wait counter. -/
theorem sendUserControl_waits (dev control : String) (s : BusState) :
    (sendUserControl dev control s).2.waits = s.waits := by
  simp only [sendUserControl, call]
  split
  · split <;> rfl
  · rfl

/-- When the effective pacing delay is not positive, the convergence loop
never waits, whatever the invocation outcomes. -/
theorem pulseLoop_no_wait (cfg : Config) (dev : String) (up : Bool)
    (hd : cfg.commandDelay ≤ 0) :
    ∀ (n : ℕ) (s : BusState), (pulseLoop cfg dev up n s).2.waits = s.waits := by
  intro n
  induction n with
  | zero => intro s; rfl
  | succ n ih =>
    intro s
    rw [pulseLoop, stepCmd_eq]
    by_cases he :
        (sendUserControl dev (if up then "volume-up" else "volume-down") s).1.error = true
    · rw [if_pos he]
      exact sendUserControl_waits dev _ s
    · rw [if_neg he, if_neg (not_lt.mpr hd), ih]
      exact sendUserControl_waits dev _ s

/-- Claim C5 (amended): `initCEC` accepts any options object, but a pacing
delay configured as zero is falsy under the `||` defaulting and is replaced
by the previously configured value, so a zero delay cannot be installed at
initialization; the convergence loop itself skips the wait exactly when the
effective delay is not positive. -/
theorem C5_pacing_delay_config (o : Options) (c : Config) :
    (o.commandDelay = some 0 → (applyOptions o c).commandDelay = c.commandDelay) ∧
    (∀ (cfg : Config) (dev : String) (up : Bool) (n : ℕ) (s : BusState),
      cfg.commandDelay ≤ 0 → (pulseLoop cfg dev up n s).2.waits = s.waits) := by
  constructor
  · intro h
    simp [applyOptions, jsOrNum, h]
  · intro cfg dev up n s hd
    exact pulseLoop_no_wait cfg dev up hd n s

/-- Witness for C5 (amended): configuring delay 0 over the defaults keeps
the default 50, and a loop run under a configuration whose effective delay
is 0 records no wait. -/
theorem C5_pacing_delay_config_witness :
    (({ cecCtlParams := none, volumeStep := none, commandDelay := some 0 } :
        Options).commandDelay = some 0 ∧
     (applyOptions { cecCtlParams := none, volumeStep := none, commandDelay := some 0 } {}
       ).commandDelay = ({} : Config).commandDelay ∧
     ({ commandDelay := 0 } : Config).commandDelay ≤ 0) ∧
    (pulseLoop { commandDelay := 0 } "5" true 2 (initState convExec)).2.waits
      = (initState convExec).waits :=
  ⟨⟨rfl,
    (C5_pacing_delay_config { cecCtlParams := none, volumeStep := none, commandDelay := some 0 }
      {}).1 rfl,
    le_refl 0⟩,
   (C5_pacing_delay_config {} {}).2 { commandDelay := 0 } "5" true 2 (initState convExec)
     (le_refl 0)⟩

/-- Counterexample to C5 as stated: passing a pacing delay of zero to
initialization does not install zero — the `||` default coerces it back to
50 — and a convergence run under the resulting configuration still waits
between pulses (four waits for four pulses). -/
theorem C5_zero_delay_coerced :
    (applyOptions { cecCtlParams := none, volumeStep := none, commandDelay := some 0 }
      {}).commandDelay = 50 ∧
    (setVolumeAbsolute
        (applyOptions { cecCtlParams := none, volumeStep := none, commandDelay := some 0 } {})
        "5" 30 (initState convExec)).2.waits = 4 := by
  have hcfg : applyOptions { cecCtlParams := none, volumeStep := none, commandDelay := some 0 }
      {} = ({} : Config) := by
    simp [applyOptions, jsOrNum, jsOrString]
  constructor
  · rw [hcfg]
  · rw [hcfg]
    have hrun := setVolumeAbsolute_okRun convExec {} "5" 30 28 4 convExec_ceil
      (by decide) (by decide) (by decide)
    rw [hrun]
    decide

/-- Claim C6 (amended): `sendUserControl` presses first; a failed press
short-circuits the release and is returned raw; when the press succeeds the
release is issued, and the returned result carries the press's success
flag — a release failure is not reflected in it — with the two outputs
joined by a newline only when the release also succeeded, and the press
output alone otherwise. -/
theorem C6_sendUserControl_press_release (dev control : String) (s : BusState) :
    (∀ m, s.exec s.count = .err m →
      sendUserControl dev control s =
        ({ error := true, output := m },
         { s with
            count := s.count + 1,
            log := s.log ++ [pressCmd control dev] })) ∧
    (∀ p q, s.exec s.count = .ok p → s.exec (s.count + 1) = .ok q →
      sendUserControl dev control s =
        ({ error := false, output := p ++ "\n" ++ q },
         { s with
            count := s.count + 2,
            log := s.log ++ [pressCmd control dev, releaseCmd dev] })) ∧
    (∀ p m, s.exec s.count = .ok p → s.exec (s.count + 1) = .err m →
      sendUserControl dev control s =
        ({ error := false, output := p },
         { s with
            count := s.count + 2,
            log := s.log ++ [pressCmd control dev, releaseCmd dev] })) := by
  refine ⟨?_, ?_, ?_⟩
  · intro m hm
    exact sendUserControl_press_err dev control s m hm
  · intro p q hp hq
    exact sendUserControl_ok_ok dev control s p q hp hq
  · intro p m hp hm
    exact sendUserControl_ok_err dev control s p m hp hm

/-- Witness for C6 (amended): press output `P`, failed release `R`: the
result keeps the success flag of the press and the press output alone. -/
theorem C6_sendUserControl_press_release_witness :
    (relErrExec 0 = .ok "P" ∧ relErrExec 1 = .err "R") ∧
    sendUserControl "5" "mute" (initState relErrExec) =
      ({ error := false, output := "P" },
       { exec := relErrExec, count := 2,
         log := [pressCmd "mute" "5", releaseCmd "5"], waits := 0 }) :=
  ⟨⟨by decide, by decide⟩, by
    have h := (C6_sendUserControl_press_release "5" "mute" (initState relErrExec)).2.2
      "P" "R" (by decide) (by decide)
    simpa [initState] using h⟩

/-- Counterexample to C6 as stated: with a successful press (output `P`)
and a failed release (error text `R`), the combined success flag of the two
sub-commands is failure and the concatenated output is `P`, newline, `R`,
but the returned result reports no error and carries the press output
alone. -/
theorem C6_release_failure_invisible :
    (relErrExec 1).isOk = false ∧
    (sendUserControl "5" "mute" (initState relErrExec)).1.error = false ∧
    (sendUserControl "5" "mute" (initState relErrExec)).1.output = "P" ∧
    (sendUserControl "5" "mute" (initState relErrExec)).1.output ≠
      "P" ++ "\n" ++ "R" := by
  refine ⟨by decide, by decide, by decide, by decide⟩

/-- A parsed raw response only carries a `mute` field when the invocation
succeeded with non-empty output. -/
theorem audioFields_raw_mute_some {e : ExecResult} {v : Nat}
    (h : (audioFields (rawResponse e)).mute = some v) :
    (rawResponse e).error = false ∧ (rawResponse e).output ≠ "" := by
  by_cases hc : (rawResponse e).error = false ∧ (rawResponse e).output ≠ ""
  · exact hc
  · rw [audioFields, if_neg hc] at h
    cases e <;> simp [rawResponse] at h

/-- Claim C7: after a successful status read carrying a mute state, a
matching desired state makes `setMute` return the no-op success message
with only the single read on the bus, while a differing state makes it
delegate to exactly one mute toggle press/release pair — the status read
followed by the `mute` press and, exactly when the press succeeded, the
release, with no other command of any kind. -/
theorem C7_setMute_matches_or_toggles
    (exec : Nat → ExecResult) (dev : String) (m d : Nat)
    (hmute : (audioFields (rawResponse (exec 0))).mute = some m) :
    (m = d → setMute dev d (initState exec) =
      ({ error := false, output := "Mute status is already set to the desired value.",
         mute := some m, volume := (audioFields (rawResponse (exec 0))).volume },
       { exec := exec, count := 1, log := [statusCmd dev], waits := 0 })) ∧
    (m ≠ d →
      setMute dev d (initState exec) =
        sendUserControl dev "mute"
          { exec := exec, count := 1, log := [statusCmd dev], waits := 0 } ∧
      (∀ o, exec 1 = .ok o →
        (setMute dev d (initState exec)).2.log =
          [statusCmd dev, pressCmd "mute" dev, releaseCmd dev]) ∧
      (∀ msg, exec 1 = .err msg →
        (setMute dev d (initState exec)).2.log = [statusCmd dev, pressCmd "mute" dev]) ∧
      (setMute dev d (initState exec)).2.log.countP
        (fun a => a == pressCmd "mute" dev) = 1) := by
  have herr : (audioFields (rawResponse (exec 0))).error = false := by
    rw [audioFields_error]
    exact (audioFields_raw_mute_some hmute).1
  constructor
  · intro hmd
    subst hmd
    simp only [setMute, getAudioStatus_eq, initState, herr, hmute]
    rw [if_neg (by simp)]
    simp
  · intro hmd
    have hB1 : setMute dev d (initState exec) =
        sendUserControl dev "mute"
          { exec := exec, count := 1, log := [statusCmd dev], waits := 0 } := by
      simp only [setMute, getAudioStatus_eq, initState, herr, hmute]
      rw [if_neg (by simp), if_neg (by simp [hmd])]
      simp
    have hlogOk : ∀ o, exec 1 = .ok o →
        (setMute dev d (initState exec)).2.log =
          [statusCmd dev, pressCmd "mute" dev, releaseCmd dev] := by
      intro o ho
      rw [hB1]
      rcases h2 : exec 2 with q | q
      · rw [sendUserControl_ok_ok dev "mute" _ o q ho h2]
        simp
      · rw [sendUserControl_ok_err dev "mute" _ o q ho h2]
        simp
    have hlogErr : ∀ msg, exec 1 = .err msg →
        (setMute dev d (initState exec)).2.log = [statusCmd dev, pressCmd "mute" dev] := by
      intro msg hmsg
      rw [hB1, sendUserControl_press_err dev "mute" _ msg hmsg]
      simp
    refine ⟨hB1, hlogOk, hlogErr, ?_⟩
    have hs := statusCmd_beq_pressCmd "mute" dev
    have hr := releaseCmd_beq_pressCmd "mute" dev
    have hpp : (pressCmd "mute" dev == pressCmd "mute" dev) = true := beq_self_eq_true _
    rcases h1 : exec 1 with o | msg
    · rw [hlogOk o h1]
      simp [List.countP_cons, hs, hr, hpp]
    · rw [hlogErr msg h1]
      simp [List.countP_cons, hs, hr, hpp]

/-- Witness for C7: current mute on (1), desired off (0): the run issues
exactly one mute press. -/
theorem C7_setMute_matches_or_toggles_witness :
    ((audioFields (rawResponse (muteExec 0))).mute = some 1 ∧ (1 : Nat) ≠ 0) ∧
    (setMute "5" 0 (initState muteExec)).2.log.countP
      (fun a => a == pressCmd "mute" "5") = 1 :=
  ⟨⟨by decide, by decide⟩,
   ((C7_setMute_matches_or_toggles muteExec "5" 1 0 (by decide)).2 (by decide)).2.2.2⟩

/-- Claim C8: parsing a successful non-empty gateway output never yields an
error; the volume field becomes the null marker — never the number 0 — when
the volume marker is missing and the parsed number when it is present,
while the mute field becomes 0 when the mute marker is missing and 1
exactly when the first mute token is `on`; each field depends only on its
own marker. -/
theorem C8_parseAudioStatus_fields (out : String) (hout : out ≠ "") :
    (audioFields (rawResponse (.ok out))).error = false ∧
    (matchCapture "aud-vol-status: ".data Char.isDigit out.data = none →
      (audioFields (rawResponse (.ok out))).volume = some none ∧
      ∀ v : Nat, (audioFields (rawResponse (.ok out))).volume ≠ some (some v)) ∧
    (∀ tok, matchCapture "aud-vol-status: ".data Char.isDigit out.data = some tok →
      (audioFields (rawResponse (.ok out))).volume = some (some (digitsToNat tok))) ∧
    (matchCapture "aud-mute-status: ".data isWordChar out.data = none →
      (audioFields (rawResponse (.ok out))).mute = some 0) ∧
    (∀ tok, matchCapture "aud-mute-status: ".data isWordChar out.data = some tok →
      (audioFields (rawResponse (.ok out))).mute =
        some (if tok = "on".data then 1 else 0)) := by
  refine ⟨?_, ?_, ?_, ?_, ?_⟩
  · rw [audioFields_error]
    rfl
  · intro h
    constructor
    · simp [audioFields, rawResponse, hout, h]
    · intro v
      simp [audioFields, rawResponse, hout, h]
  · intro tok h
    simp [audioFields, rawResponse, hout, h]
  · intro h
    simp [audioFields, rawResponse, hout, h]
  · intro tok h
    simp [audioFields, rawResponse, hout, h]

/-- Witness for C8: text with neither marker parses to a null volume and
mute 0 with no error. -/
theorem C8_parseAudioStatus_fields_witness :
    (("garbage" : String) ≠ "" ∧
     matchCapture "aud-vol-status: ".data Char.isDigit ("garbage" : String).data = none ∧
     matchCapture "aud-mute-status: ".data isWordChar ("garbage" : String).data = none) ∧
    ((audioFields (rawResponse (.ok "garbage"))).volume = some none ∧
     (audioFields (rawResponse (.ok "garbage"))).mute = some 0) :=
  ⟨⟨by decide, by decide, by decide⟩,
   ((C8_parseAudioStatus_fields "garbage" (by decide)).2.1 (by decide)).1,
   (C8_parseAudioStatus_fields "garbage" (by decide)).2.2.2.1 (by decide)⟩

/-- Claim C9: `initCEC` reports success exactly when the `--clear` and the
subsequent `--playback` invocation both succeed; a failed clear leaves the
log with the clear alone — the registration is never issued — and, whenever
initialization reports failure, the lifecycle state derived from it stays
Unregistered. -/
theorem C9_initCEC_clear_then_playback (opts : Options) (cfg : Config)
    (exec : Nat → ExecResult) :
    (initCEC opts cfg (initState exec)).1 = ((exec 0).isOk && (exec 1).isOk) ∧
    ((exec 0).isOk = false →
      (initCEC opts cfg (initState exec)).2.2.log = ["--clear"] ∧
      lifecycleAfterInit (initCEC opts cfg (initState exec)).1 = .Unregistered) ∧
    ((initCEC opts cfg (initState exec)).1 = true →
      (initCEC opts cfg (initState exec)).2.2.log = ["--clear", "--playback"]) ∧
    ((initCEC opts cfg (initState exec)).1 = false →
      lifecycleAfterInit (initCEC opts cfg (initState exec)).1 = .Unregistered) := by
  rcases h0 : exec 0 with o | m <;> rcases h1 : exec 1 with p | q <;>
    simp [initCEC, call, rawResponse, initState, h0, h1, lifecycleAfterInit,
      ExecResult.isOk]

/-- Witness for C9: a failing clear: initialization reports failure, only
the clear was issued, and the state stays Unregistered. -/
theorem C9_initCEC_clear_then_playback_witness :
    ((clearFailExec 0).isOk = false) ∧
    (initCEC {} {} (initState clearFailExec)).2.2.log = ["--clear"] ∧
    lifecycleAfterInit (initCEC {} {} (initState clearFailExec)).1 = .Unregistered :=
  ⟨by decide,
   (C9_initCEC_clear_then_playback {} {} clearFailExec).2.1 (by decide)⟩

end CecCtl
